/-
Verification of the fx-bot SMC trading engine against its specification.

The Python source is shallowly embedded over exact rationals (ℚ):
* `mean_reversion.py` indicators: swing points, liquidity sweeps, FVG
  detection, FVG mitigation, inducement, and the setup composer
  `get_smc_setup`.
* `arithmetics.py`: `get_price_at_pnl`, `get_pnl_at_price`,
  `convert_usd_to_lots` (fallible code is embedded with `Except`).
* `entry.py`: the position-sizing block (risk floor and override ceiling).
* `bias.py`: `bias_confirms_signal`.

Pandas semantics are embedded explicitly: centered rolling windows with
full-window requirement (NaN rows compare false and mark nothing),
`.rolling(n).min().shift(1)` as the extreme of the n bars preceding the
current one, `iloc` ∕ Python indexing including negative wrap-around, and
Python `round` as round-half-to-even.
-/
import Mathlib

set_option maxRecDepth 40000
set_option maxHeartbeats 2000000

/-- One OHLC bar.  Timestamps and volume are irrelevant to the verified
properties and are omitted. -/
structure Bar where
  «open» : ℚ
  high : ℚ
  low : ℚ
  close : ℚ
deriving DecidableEq

/-- Minimum of a list of rationals (`none` on the empty list), the exact
value of a full pandas rolling `min` window. -/
def listMin : List ℚ → Option ℚ
  | [] => none
  | x :: xs =>
    match listMin xs with
    | none => some x
    | some m => some (min x m)

/-- Maximum of a list of rationals (`none` on the empty list), the exact
value of a full pandas rolling `max` window. -/
def listMax : List ℚ → Option ℚ
  | [] => none
  | x :: xs =>
    match listMax xs with
    | none => some x
    | some m => some (max x m)

/-- The `high` column of a bar series. -/
def highs (df : List Bar) : List ℚ := df.map Bar.high

/-- The `low` column of a bar series. -/
def lows (df : List Bar) : List ℚ := df.map Bar.low

/-- The `close` column of a bar series. -/
def closes (df : List Bar) : List ℚ := df.map Bar.close

/-- The `open` column of a bar series. -/
def opens (df : List Bar) : List ℚ := df.map Bar.«open»

/-- `high` at a bar index (junk value 0 out of range; all uses are guarded). -/
def highAt (df : List Bar) (i : ℕ) : ℚ := (highs df).getD i 0

/-- `low` at a bar index. -/
def lowAt (df : List Bar) (i : ℕ) : ℚ := (lows df).getD i 0

/-- `close` at a bar index. -/
def closeAt (df : List Bar) (i : ℕ) : ℚ := (closes df).getD i 0

/-- `open` at a bar index. -/
def openAt (df : List Bar) (i : ℕ) : ℚ := (opens df).getD i 0

/-- The window `xs[lo : lo+len]`, as used by pandas rolling aggregations. -/
def windowSlice (xs : List ℚ) (lo len : ℕ) : List ℚ := (xs.drop lo).take len

/-- Python `Series.iloc[i]` indexing, including the negative wrap-around
(`iloc[-1]` is the last element).  Out-of-range is junk 0; the embedded
code only evaluates it in range, as the source would. -/
def pyIget (xs : List ℚ) (i : ℤ) : ℚ :=
  if 0 ≤ i then xs.getD i.toNat 0 else xs.getD (xs.length - (-i).toNat) 0

/-- Python `round` on an exact rational: round half to even (banker's
rounding), the semantics of `round(x)` in the source. -/
def pyRound (x : ℚ) : ℤ :=
  if x - ⌊x⌋ < 1/2 then ⌊x⌋
  else if (1 : ℚ)/2 < x - ⌊x⌋ then ⌊x⌋ + 1
  else if ⌊x⌋ % 2 = 0 then ⌊x⌋ else ⌊x⌋ + 1

/-- Python `round(x, digits)`. -/
def pyRoundTo (x : ℚ) (digits : ℕ) : ℚ :=
  (pyRound (x * 10 ^ digits) : ℚ) / 10 ^ digits

/-! ## `app/utils/arithmetics.py` -/

/-- `get_price_at_pnl`: price at which a desired PnL is reached, returned as
(price including commission, price excluding commission); raises
`ValueError` on an unknown trade type, embedded as `Except.error`. -/
def get_price_at_pnl (desired_pnl entry_price order_size_usd leverage : ℚ)
    (type : String) (commission : ℚ) : Except String (ℚ × ℚ) :=
  if type = "BUY" then
    Except.ok (entry_price * (1 + (desired_pnl + commission) / order_size_usd),
               entry_price * (1 + desired_pnl / order_size_usd))
  else if type = "SELL" then
    Except.ok (entry_price * (1 - (desired_pnl + commission) / order_size_usd),
               entry_price * (1 - desired_pnl / order_size_usd))
  else Except.error ("Unknown trade type: " ++ type)

/-- `get_pnl_at_price`: PnL at a given price, returned as
(gross PnL, PnL net of commission); raises `ValueError` on an unknown
trade type, embedded as `Except.error`. -/
def get_pnl_at_price (current_price entry_price order_size_usd leverage : ℚ)
    (type : String) (commission : ℚ) : Except String (ℚ × ℚ) :=
  if type = "BUY" then
    Except.ok (order_size_usd * ((current_price - entry_price) / entry_price),
               order_size_usd * ((current_price - entry_price) / entry_price) - commission)
  else if type = "SELL" then
    Except.ok (order_size_usd * ((entry_price - current_price) / entry_price),
               order_size_usd * ((entry_price - current_price) / entry_price) - commission)
  else Except.error ("Unknown trade type: " ++ type)

/-- The body of `convert_usd_to_lots` before its `try/except` wrapper: the
dictionary lookup `price_dict[type]` raises `KeyError` for a type that is
neither BUY nor SELL, then lots are computed and rounded to the lot step.
The broker quote (ask, bid, contract size, volume step) is passed in,
standing for the external `symbol_info` collaborator. -/
def convert_usd_to_lots_checked (ask bid contract_size lot_step usd_amount : ℚ)
    (type : String) : Except String ℚ := do
  let price ←
    if type = "BUY" then Except.ok ask
    else if type = "SELL" then Except.ok bid
    else Except.error ("KeyError: " ++ type)
  let lots := usd_amount / (contract_size * price)
  return (pyRound (lots / lot_step) : ℚ) * lot_step

/-- `convert_usd_to_lots`: the whole body runs inside
`try: ... except Exception: return 0.0`, so any failure (including the
`KeyError` on an unknown type) is swallowed and the default `0.0` is
returned to the caller. -/
def convert_usd_to_lots (ask bid contract_size lot_step usd_amount : ℚ)
    (type : String) : ℚ :=
  match convert_usd_to_lots_checked ask bid contract_size lot_step usd_amount type with
  | Except.ok v => v
  | Except.error _ => 0

/-! ## `mean_reversion/config.py` risk constants (env-default values) -/

def RISK_PERCENT_PER_TRADE : ℚ := 3/2

def MIN_LOT_SIZE : ℚ := 1/100

def MAX_RISK_PERCENT_OVERRIDE : ℚ := 3

/-! ## `mean_reversion/entry.py` position-sizing block (lines 432–446) -/

/-- The position-sizing decision of `entry_algorithm`: raw lots from the
risk amount, the `max(MIN_LOT_SIZE, ·)` floor with `round(·, 2)`, the
recomputed actual risk, and the `MAX_RISK_PERCENT_OVERRIDE` ceiling check.
`none` means the trade is rejected (the loop `continue`s before any order
is sent); `some lots` is the volume submitted to the order sink. -/
def size_position (balance price_distance contract_size : ℚ) : Option ℚ :=
  let risk_amount_usd := balance * RISK_PERCENT_PER_TRADE / 100
  let order_volume_lots := risk_amount_usd / (price_distance * contract_size)
  let lots := pyRoundTo (max MIN_LOT_SIZE order_volume_lots) 2
  let actual_risk_usd := lots * price_distance * contract_size
  let actual_risk_percent := if 0 < balance then actual_risk_usd / balance * 100 else 0
  if MAX_RISK_PERCENT_OVERRIDE < actual_risk_percent then none else some lots

/-- The actual risk in USD that the sizing block recomputes for the final
(floored and rounded) lot size. -/
def size_actual_risk (balance price_distance contract_size : ℚ) : ℚ :=
  pyRoundTo (max MIN_LOT_SIZE (balance * RISK_PERCENT_PER_TRADE / 100 / (price_distance * contract_size))) 2
    * price_distance * contract_size

/-! ## `mean_reversion/bias.py` -/

/-- `bias_confirms_signal`: does the higher-timeframe bias confirm the
setup direction? -/
def bias_confirms_signal (bias signal_type : String) : Bool :=
  if bias = "NEUTRAL" then true
  else if bias = "LONG_ONLY" ∧ signal_type = "BULLISH" then true
  else if bias = "SHORT_ONLY" ∧ signal_type = "BEARISH" then true
  else false

/-! ## `indicators/mean_reversion.py` -/

/-- The centered rolling maximum of `detect_swing_points`:
`high.rolling(window=2*lookback+1, center=True).max()` at row `i` covers
`[i-lookback, i+lookback]` and is NaN (here `none`) unless the window lies
fully inside the series. -/
def rolling_centered_max (xs : List ℚ) (lookback i : ℕ) : Option ℚ :=
  if lookback ≤ i ∧ i + lookback < xs.length then
    listMax (windowSlice xs (i - lookback) (2 * lookback + 1))
  else none

/-- The centered rolling minimum, symmetric to `rolling_centered_max`. -/
def rolling_centered_min (xs : List ℚ) (lookback i : ℕ) : Option ℚ :=
  if lookback ≤ i ∧ i + lookback < xs.length then
    listMin (windowSlice xs (i - lookback) (2 * lookback + 1))
  else none

/-- The `swing_high` column of `detect_swing_points`: the bar's high where
it equals the centered rolling maximum, NaN (`none`) otherwise. -/
def swing_high (df : List Bar) (lookback i : ℕ) : Option ℚ :=
  match rolling_centered_max (highs df) lookback i with
  | none => none
  | some m => if highAt df i = m then some (highAt df i) else none

/-- The `swing_low` column of `detect_swing_points`. -/
def swing_low (df : List Bar) (lookback i : ℕ) : Option ℚ :=
  match rolling_centered_min (lows df) lookback i with
  | none => none
  | some m => if lowAt df i = m then some (lowAt df i) else none

/-- `detect_liquidity_sweep` at bar `i`.  The rolling extremes
`low.rolling(sweep_lookback).min().shift(1)` and the `high` analogue cover
the `sweep_lookback` bars strictly before `i` and are NaN for the first
`sweep_lookback` rows (NaN comparisons are false, so no signal there).
The pandas source assigns the bullish labels first and then the bearish
labels, so a bar satisfying both conditions ends up `BEARISH_SWEEP`. -/
def sweep_signal (df : List Bar) (sweep_lookback i : ℕ) : Option String :=
  if 1 ≤ sweep_lookback ∧ sweep_lookback ≤ i ∧ i < df.length then
    match listMin (windowSlice (lows df) (i - sweep_lookback) sweep_lookback),
          listMax (windowSlice (highs df) (i - sweep_lookback) sweep_lookback) with
    | some lowest_low, some highest_high =>
      if highest_high < highAt df i ∧ closeAt df i < highest_high then
        some "BEARISH_SWEEP"
      else if lowAt df i < lowest_low ∧ lowest_low < closeAt df i then
        some "BULLISH_SWEEP"
      else none
    | _, _ => none
  else none

/-- One detected fair value gap: the `fvg_signal`, `fvg_top`, `fvg_bottom`
and `fvg_midpoint` columns of `detect_fvg` at the formation bar. -/
structure FVGInfo where
  signal : String
  top : ℚ
  bottom : ℚ
  midpoint : ℚ
deriving DecidableEq

/-- `detect_fvg` at bar `i` (the loop runs over `2 ≤ i < len(df)`):
bullish iff `low[i] > high[i-2]`, else bearish iff `high[i] < low[i-2]`,
at most one gap per bar, midpoint `bottom + (top - bottom) * 0.5`. -/
def detect_fvg (df : List Bar) (i : ℕ) : Option FVGInfo :=
  if 2 ≤ i ∧ i < df.length then
    if highAt df (i - 2) < lowAt df i then
      some ⟨"BULLISH_FVG", lowAt df i, highAt df (i - 2),
            highAt df (i - 2) + (lowAt df i - highAt df (i - 2)) * (1/2)⟩
    else if highAt df i < lowAt df (i - 2) then
      some ⟨"BEARISH_FVG", lowAt df (i - 2), highAt df i,
            highAt df i + (lowAt df (i - 2) - highAt df i) * (1/2)⟩
    else none
  else none

/-- `is_fvg_mitigated`: consequent-encroachment check.  The gap boundaries
are re-read with `iloc[fvg_index]` and `iloc[fvg_index - 2]` — Python
indexing, so for `fvg_index < 2` the second index wraps around to the END
of the series (`pyIget`).  A bullish gap is mitigated when any later low
reaches the midpoint, a bearish gap when any later high does; any other
`fvg_type` string returns `False`. -/
def is_fvg_mitigated (df : List Bar) (fvg_index : ℕ) (fvg_type : String) : Bool :=
  if df.length ≤ fvg_index + 1 then false
  else if fvg_type = "BULLISH_FVG" then
    let gap_top := pyIget (lows df) fvg_index
    let gap_bottom := pyIget (highs df) ((fvg_index : ℤ) - 2)
    let midpoint := gap_bottom + (gap_top - gap_bottom) * (1/2)
    ((lows df).drop (fvg_index + 1)).any fun l => decide (l ≤ midpoint)
  else if fvg_type = "BEARISH_FVG" then
    let gap_top := pyIget (lows df) ((fvg_index : ℤ) - 2)
    let gap_bottom := pyIget (highs df) fvg_index
    let midpoint := gap_bottom + (gap_top - gap_bottom) * (1/2)
    ((highs df).drop (fvg_index + 1)).any fun h => decide (midpoint ≤ h)
  else false

/-- `detect_inducement`'s result dictionary. -/
structure InducementInfo where
  found : Bool
  level : Option ℚ
  swept : Bool
deriving DecidableEq

/-- `detect_inducement`: the most recent internal swing point in the
`lookback` bars before the FVG (swing columns computed with lookback 5, as
`get_smc_setup` does), and whether any bar from that swing point up to and
including the FVG bar traded through it. -/
def detect_inducement (df : List Bar) (fvg_index : ℕ) (fvg_type : String)
    (lookback : ℕ) : InducementInfo :=
  if fvg_index < lookback then ⟨false, none, false⟩
  else if fvg_type = "BULLISH_FVG" then
    match ((List.range' (fvg_index - lookback) lookback).reverse).find?
        (fun j => (swing_low df 5 j).isSome) with
    | none => ⟨false, none, false⟩
    | some jlow =>
      let internal_low := lowAt df jlow
      ⟨true, some internal_low,
       (List.range' jlow (fvg_index + 1 - jlow)).any fun j =>
         decide (lowAt df j < internal_low)⟩
  else if fvg_type = "BEARISH_FVG" then
    match ((List.range' (fvg_index - lookback) lookback).reverse).find?
        (fun j => (swing_high df 5 j).isSome) with
    | none => ⟨false, none, false⟩
    | some jhigh =>
      let internal_high := highAt df jhigh
      ⟨true, some internal_high,
       (List.range' jhigh (fvg_index + 1 - jhigh)).any fun j =>
         decide (internal_high < highAt df j)⟩
  else ⟨false, none, false⟩

/-- True range of bar `i` (high−low against the previous close). -/
def true_range (df : List Bar) (i : ℕ) : ℚ :=
  if i = 0 then highAt df 0 - lowAt df 0
  else max (highAt df i - lowAt df i)
        (max |highAt df i - closeAt df (i - 1)| |lowAt df i - closeAt df (i - 1)|)

/-- Modelled from the spec: the volatility baseline of the displacement
detector comes from the external `pandas_ta.atr` library call, which is
not part of this repository; §4.3 describes it as a rolling
average-true-range-style baseline over `atr_period` bars with no signal
until `atr_period` bars of history have accumulated. -/
def atr_baseline (df : List Bar) (period i : ℕ) : Option ℚ :=
  if 1 ≤ period ∧ period ≤ i ∧ i < df.length then
    some ((((List.range' (i + 1 - period) period).map (true_range df)).foldr (· + ·) 0) / period)
  else none

/-- `detect_displacement` at bar `i`: body size above `threshold × ATR`,
direction from the candle body. -/
def displacement_signal (df : List Bar) (threshold : ℚ) (period i : ℕ) : Option String :=
  match atr_baseline df period i with
  | none => none
  | some a =>
    if threshold * a < |closeAt df i - openAt df i| then
      if openAt df i < closeAt df i then some "BULLISH_DISPLACEMENT"
      else some "BEARISH_DISPLACEMENT"
    else none

/-- `'BULLISH' if sweep_signal == 'BULLISH_SWEEP' else 'BEARISH'`. -/
def sweep_dir (s : String) : String :=
  if s = "BULLISH_SWEEP" then "BULLISH" else "BEARISH"

/-- `'BULLISH' if fvg_type == 'BULLISH_FVG' else 'BEARISH'`. -/
def fvg_dir (t : String) : String :=
  if t = "BULLISH_FVG" then "BULLISH" else "BEARISH"

/-- `'BULLISH' if displacement == 'BULLISH_DISPLACEMENT' else 'BEARISH'`. -/
def disp_dir (s : String) : String :=
  if s = "BULLISH_DISPLACEMENT" then "BULLISH" else "BEARISH"

/-- Does bar `j` carry a sweep signal whose direction matches `dir`?
(The body of the `for j` loop in `get_smc_setup`, check 2.) -/
def sweep_match (df : List Bar) (sweep_lookback : ℕ) (dir : String) (j : ℕ) : Bool :=
  match sweep_signal df sweep_lookback j with
  | none => false
  | some s => decide (sweep_dir s = dir)

/-- The ascending scan of `for j in range(max(0, i - 5), i)` with `break`
on the first direction-matching sweep. -/
def find_sweep_aux (df : List Bar) (sweep_lookback : ℕ) (dir : String) :
    ℕ → ℕ → Option ℕ
  | _, 0 => none
  | j, fuel + 1 =>
    if sweep_match df sweep_lookback dir j then some j
    else find_sweep_aux df sweep_lookback dir (j + 1) fuel

/-- Check 2 of `get_smc_setup`: the matched sweep bar for the FVG at bar
`i`, scanning `j = max(0, i-5), ..., i-1` in ascending order. -/
def find_sweep (df : List Bar) (sweep_lookback i : ℕ) (fvg_type : String) : Option ℕ :=
  find_sweep_aux df sweep_lookback (fvg_dir fvg_type) (i - 5) (i - (i - 5))

/-- Check 4 of `get_smc_setup`: a direction-matching displacement within
`[sweep_bar, min(sweep_bar + 4, len(df)))` (advisory only). -/
def displacement_found_in (df : List Bar) (threshold : ℚ) (sweep_bar : ℕ)
    (dir : String) : Bool :=
  (List.range' sweep_bar (min (sweep_bar + 4) df.length - sweep_bar)).any fun k =>
    match displacement_signal df threshold 14 k with
    | none => false
    | some s => decide (disp_dir s = dir)

/-- The setup dictionary returned by `get_smc_setup`. -/
structure Setup where
  setup_type : String
  fvg_bar : ℕ
  fvg_midpoint : ℚ
  sweep_bar : ℕ
  sweep_level : ℚ
  displacement_found : Bool
  inducement : InducementInfo
  entry_price : ℚ
deriving DecidableEq

/-- The loop body of `get_smc_setup` for one candidate bar `i`: no FVG or
a mitigated FVG or no matching sweep yields `none` (the loop `continue`s),
otherwise the setup dictionary is built and returned. -/
def process_candidate (df : List Bar) (sweep_lookback : ℕ) (threshold : ℚ)
    (i : ℕ) : Option Setup :=
  match detect_fvg df i with
  | none => none
  | some g =>
    if is_fvg_mitigated df i g.signal then none
    else
      match find_sweep df sweep_lookback i g.signal with
      | none => none
      | some j =>
        let setup_type := if g.signal = "BULLISH_FVG" then "BULLISH" else "BEARISH"
        some
          { setup_type := setup_type
            fvg_bar := i
            fvg_midpoint := g.midpoint
            sweep_bar := j
            sweep_level := if setup_type = "BULLISH" then lowAt df j else highAt df j
            displacement_found := displacement_found_in df threshold j (fvg_dir g.signal)
            inducement := detect_inducement df i g.signal 8
            entry_price := closeAt df (df.length - 1) }

/-- The backward scan `for i in range(len(df)-1, max(len(df)-11, sweep_lookback), -1)`
with early return on the first complete candidate. -/
def scan_candidates (df : List Bar) (sweep_lookback : ℕ) (threshold : ℚ) :
    ℕ → ℕ → Option Setup
  | _, 0 => none
  | i, fuel + 1 =>
    match process_candidate df sweep_lookback threshold i with
    | some s => some s
    | none => scan_candidates df sweep_lookback threshold (i - 1) fuel

/-- `get_smc_setup`: fail fast below `sweep_lookback + 10` bars, then scan
the last 10 bars backward, never past the `sweep_lookback` floor. -/
def get_smc_setup (df : List Bar) (sweep_lookback : ℕ) (threshold : ℚ) :
    Option Setup :=
  if df.length < sweep_lookback + 10 then none
  else
    scan_candidates df sweep_lookback threshold (df.length - 1)
      (df.length - 1 - max (df.length - 11) sweep_lookback)

/-! ## Concrete example series used by counterexamples and witnesses -/

/-- A series whose highs are 1, 3, 1, 10, 1 — a single global maximum at
index 3 together with a smaller local maximum at index 1. -/
def singleMaxSeries : List Bar :=
  [⟨1, 1, 1, 1⟩, ⟨3, 3, 3, 3⟩, ⟨1, 1, 1, 1⟩, ⟨10, 10, 10, 10⟩, ⟨1, 1, 1, 1⟩]

/-- A 30-bar series with a bullish FVG at bar 27 (low 102 over high 99 of
bar 25, unmitigated by bars 28–29) and TWO bullish sweeps in the five bars
before it: bar 22 (low 95 under the prior 20-bar minimum 99, close 100
back above) and bar 26 (low 90 under the prior 20-bar minimum 95, close
100 back above). -/
def c1Df : List Bar :=
  [⟨100, 101, 99, 100⟩, ⟨100, 101, 99, 100⟩, ⟨100, 101, 99, 100⟩, ⟨100, 101, 99, 100⟩,
   ⟨100, 101, 99, 100⟩, ⟨100, 101, 99, 100⟩, ⟨100, 101, 99, 100⟩, ⟨100, 101, 99, 100⟩,
   ⟨100, 101, 99, 100⟩, ⟨100, 101, 99, 100⟩, ⟨100, 101, 99, 100⟩, ⟨100, 101, 99, 100⟩,
   ⟨100, 101, 99, 100⟩, ⟨100, 101, 99, 100⟩, ⟨100, 101, 99, 100⟩, ⟨100, 101, 99, 100⟩,
   ⟨100, 101, 99, 100⟩, ⟨100, 101, 99, 100⟩, ⟨100, 101, 99, 100⟩, ⟨100, 101, 99, 100⟩,
   ⟨100, 101, 99, 100⟩, ⟨100, 101, 99, 100⟩, ⟨100, 101, 95, 100⟩, ⟨100, 101, 99, 100⟩,
   ⟨100, 101, 99, 100⟩, ⟨98, 99, 97, 98⟩, ⟨100, 101, 90, 100⟩, ⟨102, 104, 102, 103⟩,
   ⟨102, 103, 101, 102⟩, ⟨102, 103, 101, 102⟩]

/-- The setup that `get_smc_setup` returns on `c1Df`: the FVG at bar 27
matched with the FARTHEST of the two eligible sweeps (bar 22), not the
nearest (bar 26). -/
def c1Setup : Setup :=
  ⟨"BULLISH", 27, 201/2, 22, 95, false, ⟨false, none, false⟩, 102⟩

/-! ## Claim C8 -/

/-- Claim C8: `bias_confirms_signal` implements exactly the confirmation
rule — NEUTRAL bias confirms any setup direction, LONG_ONLY confirms only
BULLISH setups, SHORT_ONLY confirms only BEARISH setups, and every other
combination returns false; in particular LONG_ONLY with a BEARISH setup
returns false. -/
theorem bias_confirms_signal_rule :
    (∀ bias signal_type : String,
      bias_confirms_signal bias signal_type = true ↔
        (bias = "NEUTRAL" ∨ bias = "LONG_ONLY" ∧ signal_type = "BULLISH" ∨
         bias = "SHORT_ONLY" ∧ signal_type = "BEARISH")) ∧
    bias_confirms_signal "LONG_ONLY" "BEARISH" = false := by
  constructor
  · intro bias signal_type
    unfold bias_confirms_signal
    split_ifs with h1 h2 h3 <;> simp_all
  · simp [bias_confirms_signal]

/-! ## Claim C10 -/

/-- Claim C10: `is_fvg_mitigated` returns false when the FVG index is the
last index of the series (no subsequent bars), and returns false for every
`fvg_type` other than BULLISH_FVG or BEARISH_FVG, regardless of the
series contents. -/
theorem is_fvg_mitigated_trivial_cases (df : List Bar) (i : ℕ) (t : String) :
    is_fvg_mitigated df (df.length - 1) t = false ∧
      (t ≠ "BULLISH_FVG" → t ≠ "BEARISH_FVG" → is_fvg_mitigated df i t = false) := by
  constructor
  · unfold is_fvg_mitigated
    rw [if_pos (by omega)]
  · intro h1 h2
    unfold is_fvg_mitigated
    split_ifs <;> simp_all

/-- Witness for C10 at a concrete series, index and foreign type string. -/
theorem is_fvg_mitigated_trivial_cases_witness :
    ("CHOCH" : String) ≠ "BULLISH_FVG" ∧ ("CHOCH" : String) ≠ "BEARISH_FVG" ∧
      is_fvg_mitigated [⟨1, 2, 0, 1⟩, ⟨1, 2, 0, 1⟩] 0 "CHOCH" = false :=
  ⟨by decide, by decide,
   (is_fvg_mitigated_trivial_cases [⟨1, 2, 0, 1⟩, ⟨1, 2, 0, 1⟩] 0 "CHOCH").2
     (by decide) (by decide)⟩

/-! ## Claim C7 -/

/-- Claim C7: every FVG recorded by `detect_fvg` (bullish iff
`low[i] > high[i-2]`, bearish iff `high[i] < low[i-2]`, at most one per
bar by construction) has `top > bottom`, and its recorded midpoint equals
`(top + bottom) / 2` exactly. -/
theorem detect_fvg_geometry (df : List Bar) (i : ℕ) (g : FVGInfo)
    (h : detect_fvg df i = some g) :
    g.bottom < g.top ∧ g.midpoint = (g.top + g.bottom) / 2 := by
  unfold detect_fvg at h
  split_ifs at h with hrange hbull hbear
  · cases h
    exact ⟨hbull, by dsimp only; ring⟩
  · cases h
    exact ⟨hbear, by dsimp only; ring⟩

/-- Witness for C7: the spec scenario `high[i-2] = 100`, `low[i] = 105`
gives the bullish FVG with top 105, bottom 100 and midpoint 102.5. -/
theorem detect_fvg_geometry_witness :
    detect_fvg [⟨100, 100, 99, 100⟩, ⟨100, 100, 99, 100⟩, ⟨105, 106, 105, 106⟩] 2 =
      some ⟨"BULLISH_FVG", 105, 100, 205/2⟩ ∧
    ((100 : ℚ) < 105 ∧ (205 : ℚ)/2 = (105 + 100) / 2) := by
  have h : detect_fvg [⟨100, 100, 99, 100⟩, ⟨100, 100, 99, 100⟩, ⟨105, 106, 105, 106⟩] 2 =
      some ⟨"BULLISH_FVG", 105, 100, 205/2⟩ := by
    norm_num [detect_fvg, highAt, lowAt, highs, lows]
  exact ⟨h, detect_fvg_geometry _ 2 _ h⟩

/-! ## Claim C9 -/

/-- Claim C9: on a bar where the bullish-sweep condition (low below the
prior rolling minimum, close back above it) and the bearish-sweep
condition (high above the prior rolling maximum, close back below it)
hold simultaneously, `detect_liquidity_sweep` labels the bar
BEARISH_SWEEP — the bearish assignment overwrites the bullish one, and the
Option-valued output carries at most one direction label per bar. -/
theorem sweep_signal_bearish_overwrites (df : List Bar) (sweep_lookback i : ℕ)
    (lowest_low highest_high : ℚ)
    (hwin : 1 ≤ sweep_lookback ∧ sweep_lookback ≤ i ∧ i < df.length)
    (hmin : listMin (windowSlice (lows df) (i - sweep_lookback) sweep_lookback) =
      some lowest_low)
    (hmax : listMax (windowSlice (highs df) (i - sweep_lookback) sweep_lookback) =
      some highest_high)
    (hbull : lowAt df i < lowest_low ∧ lowest_low < closeAt df i)
    (hbear : highest_high < highAt df i ∧ closeAt df i < highest_high) :
    sweep_signal df sweep_lookback i = some "BEARISH_SWEEP" := by
  unfold sweep_signal
  rw [if_pos hwin, hmin, hmax]
  dsimp only
  rw [if_pos hbear]

/-- Witness for C9: a huge-range second bar that wicks through both prior
extremes and closes inside gets the BEARISH_SWEEP label. -/
theorem sweep_signal_bearish_overwrites_witness :
    (lowAt [⟨10, 10, 5, 7⟩, ⟨6, 11, 4, 6⟩] 1 < 5 ∧ (5 : ℚ) < closeAt [⟨10, 10, 5, 7⟩, ⟨6, 11, 4, 6⟩] 1) ∧
    ((10 : ℚ) < highAt [⟨10, 10, 5, 7⟩, ⟨6, 11, 4, 6⟩] 1 ∧ closeAt [⟨10, 10, 5, 7⟩, ⟨6, 11, 4, 6⟩] 1 < 10) ∧
    sweep_signal [⟨10, 10, 5, 7⟩, ⟨6, 11, 4, 6⟩] 1 1 = some "BEARISH_SWEEP" := by
  refine ⟨by decide, by decide, ?_⟩
  exact sweep_signal_bearish_overwrites [⟨10, 10, 5, 7⟩, ⟨6, 11, 4, 6⟩] 1 1 5 10
    (by decide) (by decide) (by decide) (by decide) (by decide)

/-! ## Claim C2 -/

/-- Claim C2: for positive entry price, order size and leverage,
nonnegative commission and direction BUY or SELL, `get_price_at_pnl` and
`get_pnl_at_price` are exact inverses.  Matching components round-trip:
the net PnL feeds the with-commission price (and the gross PnL the
without-commission price) back to the original price P, and in the other
direction the with-commission price feeds the net PnL (and the
without-commission price the gross PnL) back to the original PnL x. -/
theorem price_pnl_roundtrip (entry_price order_size_usd leverage commission P x : ℚ)
    (type : String) (he : 0 < entry_price) (hos : 0 < order_size_usd)
    (hlv : 0 < leverage) (hc : 0 ≤ commission)
    (ht : type = "BUY" ∨ type = "SELL") :
    ∃ q r rr s u uu : ℚ × ℚ,
      get_pnl_at_price P entry_price order_size_usd leverage type commission = Except.ok q ∧
      get_price_at_pnl q.2 entry_price order_size_usd leverage type commission = Except.ok r ∧
      r.1 = P ∧
      get_price_at_pnl q.1 entry_price order_size_usd leverage type commission = Except.ok rr ∧
      rr.2 = P ∧
      get_price_at_pnl x entry_price order_size_usd leverage type commission = Except.ok s ∧
      get_pnl_at_price s.1 entry_price order_size_usd leverage type commission = Except.ok u ∧
      u.2 = x ∧
      get_pnl_at_price s.2 entry_price order_size_usd leverage type commission = Except.ok uu ∧
      uu.1 = x := by
  have he' : entry_price ≠ 0 := ne_of_gt he
  have hos' : order_size_usd ≠ 0 := ne_of_gt hos
  rcases ht with rfl | rfl <;>
    refine ⟨_, _, _, _, _, _, rfl, rfl, ?_, rfl, ?_, rfl, rfl, ?_, rfl, ?_⟩ <;>
    dsimp only <;> field_simp <;> ring

/-- Witness for C2 at entry 2, order size 5, leverage 10, commission 1,
P = 3, x = 4, direction BUY. -/
theorem price_pnl_roundtrip_witness :
    (0 : ℚ) < 2 ∧ (0 : ℚ) < 5 ∧ (0 : ℚ) < 10 ∧ (0 : ℚ) ≤ 1 ∧
    (∃ q r rr s u uu : ℚ × ℚ,
      get_pnl_at_price 3 2 5 10 "BUY" 1 = Except.ok q ∧
      get_price_at_pnl q.2 2 5 10 "BUY" 1 = Except.ok r ∧
      r.1 = 3 ∧
      get_price_at_pnl q.1 2 5 10 "BUY" 1 = Except.ok rr ∧
      rr.2 = 3 ∧
      get_price_at_pnl 4 2 5 10 "BUY" 1 = Except.ok s ∧
      get_pnl_at_price s.1 2 5 10 "BUY" 1 = Except.ok u ∧
      u.2 = 4 ∧
      get_pnl_at_price s.2 2 5 10 "BUY" 1 = Except.ok uu ∧
      uu.1 = 4) :=
  ⟨by norm_num, by norm_num, by norm_num, by norm_num,
   price_pnl_roundtrip 2 5 10 1 3 4 "BUY" (by norm_num) (by norm_num)
     (by norm_num) (by norm_num) (Or.inl rfl)⟩

/-! ## Claim C4 -/

/-- Counterexample for C4: invoked with the direction "HOLD" (neither BUY
nor SELL), `convert_usd_to_lots` does not propagate a failure to the
caller — the `try/except` wrapper swallows the `KeyError` raised by the
dictionary lookup and the function silently returns the default 0.0. -/
theorem convert_usd_to_lots_silent_default :
    convert_usd_to_lots_checked 2 1 100 (1/100) 50 "HOLD" =
      Except.error ("KeyError: " ++ "HOLD") ∧
    convert_usd_to_lots 2 1 100 (1/100) 50 "HOLD" = 0 := by
  constructor <;>
    simp [convert_usd_to_lots, convert_usd_to_lots_checked]

/-- Claim C4 as amended: with a direction that is neither BUY nor SELL,
`get_price_at_pnl` and `get_pnl_at_price` reject with the descriptive
`ValueError: Unknown trade type` that propagates to the caller, while
`convert_usd_to_lots` raises a `KeyError` internally but catches it and
silently returns the default 0.0 instead of propagating it. -/
theorem invalid_direction_behaviour (p e os lv c ask bid cs step usd : ℚ)
    (t : String) (h1 : t ≠ "BUY") (h2 : t ≠ "SELL") :
    get_price_at_pnl p e os lv t c = Except.error ("Unknown trade type: " ++ t) ∧
    get_pnl_at_price p e os lv t c = Except.error ("Unknown trade type: " ++ t) ∧
    convert_usd_to_lots_checked ask bid cs step usd t =
      Except.error ("KeyError: " ++ t) ∧
    convert_usd_to_lots ask bid cs step usd t = 0 := by
  refine ⟨?_, ?_, ?_, ?_⟩ <;>
    simp [get_price_at_pnl, get_pnl_at_price, convert_usd_to_lots,
      convert_usd_to_lots_checked, h1, h2]

/-- Witness for the amended C4 at the concrete direction "HOLD". -/
theorem invalid_direction_behaviour_witness :
    ("HOLD" : String) ≠ "BUY" ∧ ("HOLD" : String) ≠ "SELL" ∧
    (get_price_at_pnl 7 2 5 10 "HOLD" 1 = Except.error ("Unknown trade type: " ++ "HOLD") ∧
     get_pnl_at_price 7 2 5 10 "HOLD" 1 = Except.error ("Unknown trade type: " ++ "HOLD") ∧
     convert_usd_to_lots_checked 2 1 100 (1/100) 50 "HOLD" =
       Except.error ("KeyError: " ++ "HOLD") ∧
     convert_usd_to_lots 2 1 100 (1/100) 50 "HOLD" = 0) :=
  ⟨by decide, by decide,
   invalid_direction_behaviour 7 2 5 10 1 2 1 100 (1/100) 50 "HOLD"
     (by decide) (by decide)⟩

/-! ## Claim C5 -/

/-- Counterexample for C5: with balance 0, stop distance 1 and contract
size 100000, flooring the raw lot size (0) up to MIN_LOT_SIZE makes the
actual risk 1000 USD, which exceeds MAX_RISK_PERCENT_OVERRIDE percent of
the balance (3% of 0 = 0) — yet the sizing block computes
`actual_risk_percent = 0` through its `if current_balance > 0 else 0`
branch and submits the minimum-lot order instead of rejecting. -/
theorem size_position_zero_balance_submits :
    size_position 0 1 100000 = some (1/100) ∧
    MAX_RISK_PERCENT_OVERRIDE / 100 * 0 < size_actual_risk 0 1 100000 := by
  constructor <;>
    norm_num [size_position, size_actual_risk, pyRoundTo, pyRound,
      MIN_LOT_SIZE, RISK_PERCENT_PER_TRADE, MAX_RISK_PERCENT_OVERRIDE,
      max_def, Int.floor_one]

/-- Claim C5 as amended: for every account state with positive balance
where the floored (and rounded) lot size makes the recomputed actual risk
exceed MAX_RISK_PERCENT_OVERRIDE percent of balance, the sizing block
rejects the trade (`none`, no order submitted); it never silently submits
an oversized order. -/
theorem size_position_ceiling (balance price_distance contract_size : ℚ)
    (hb : 0 < balance)
    (hr : MAX_RISK_PERCENT_OVERRIDE / 100 * balance <
      size_actual_risk balance price_distance contract_size) :
    size_position balance price_distance contract_size = none := by
  unfold size_position
  unfold size_actual_risk at hr
  unfold MAX_RISK_PERCENT_OVERRIDE at hr ⊢
  dsimp only
  rw [if_pos hb, if_pos]
  rw [div_mul_eq_mul_div, lt_div_iff hb]
  linarith

/-- Witness for the amended C5: balance 100, stop distance 1, contract
size 100000 — the raw lots 0.000015 are floored to 0.01, the actual risk
is 1000 USD = 1000% of balance, and the block rejects. -/
theorem size_position_ceiling_witness :
    (0 : ℚ) < 100 ∧
    MAX_RISK_PERCENT_OVERRIDE / 100 * 100 < size_actual_risk 100 1 100000 ∧
    size_position 100 1 100000 = none := by
  have h : MAX_RISK_PERCENT_OVERRIDE / 100 * 100 < size_actual_risk 100 1 100000 := by
    norm_num [size_actual_risk, pyRoundTo, pyRound, MIN_LOT_SIZE,
      RISK_PERCENT_PER_TRADE, MAX_RISK_PERCENT_OVERRIDE, max_def, Int.floor_one]
  exact ⟨by norm_num, h, size_position_ceiling 100 1 100000 (by norm_num) h⟩

/-! ## Claim C6 -/

/-- Appending bars extends the `low` column on the right. -/
theorem lows_append (df ext : List Bar) : lows (df ++ ext) = lows df ++ lows ext :=
  List.map_append _ _ _

/-- Appending bars extends the `high` column on the right. -/
theorem highs_append (df ext : List Bar) : highs (df ++ ext) = highs df ++ highs ext :=
  List.map_append _ _ _

/-- Python indexing at a nonnegative in-range position is unchanged by
appending trailing elements. -/
theorem pyIget_append_of_lt (xs ys : List ℚ) (i : ℤ) (h0 : 0 ≤ i)
    (h : i.toNat < xs.length) : pyIget (xs ++ ys) i = pyIget xs i := by
  unfold pyIget
  rw [if_pos h0, if_pos h0, List.getD_append _ _ _ _ h]

/-- Counterexample for C6: for the FVG index 1 the source reads the gap
boundary with `iloc[fvg_index - 2] = iloc[-1]`, Python's negative
indexing, i.e. the CURRENT LAST bar of the series.  Extending the series
therefore moves the gap boundary: on the 3-bar series below
`is_fvg_mitigated` returns true, and after appending one more bar it
returns false — mitigation is un-set by the extension. -/
theorem is_fvg_mitigated_not_monotone :
    is_fvg_mitigated [⟨10, 11, 9, 10⟩, ⟨10, 12, 10, 10⟩, ⟨15, 20, 14, 15⟩] 1
      "BULLISH_FVG" = true ∧
    is_fvg_mitigated ([⟨10, 11, 9, 10⟩, ⟨10, 12, 10, 10⟩, ⟨15, 20, 14, 15⟩] ++
      [⟨15, 17, 14, 15⟩]) 1 "BULLISH_FVG" = false := by
  constructor <;>
    simp [is_fvg_mitigated, pyIget, lows, highs] <;> norm_num

/-- Claim C6 as amended: for every FVG index `f ≥ 2` (every index at which
`detect_fvg` can actually record an FVG), mitigation is monotone under
extension — once `is_fvg_mitigated` returns true for `f` against a series,
it returns true for `f` against any extension of that series by trailing
bars. -/
theorem is_fvg_mitigated_monotone (df ext : List Bar) (f : ℕ) (t : String)
    (hf : 2 ≤ f) (h : is_fvg_mitigated df f t = true) :
    is_fvg_mitigated (df ++ ext) f t = true := by
  unfold is_fvg_mitigated at h ⊢
  by_cases hlen : df.length ≤ f + 1
  · rw [if_pos hlen] at h
    exact absurd h (by simp)
  push_neg at hlen
  rw [if_neg (by omega)] at h
  have hlen2 : ¬ ((df ++ ext).length ≤ f + 1) := by
    rw [List.length_append]; omega
  rw [if_neg hlen2]
  have hlows : (lows df).length = df.length := List.length_map _ _
  have hhighs : (highs df).length = df.length := List.length_map _ _
  have htn : ((f : ℤ) - 2).toNat = f - 2 := by omega
  by_cases ht1 : t = "BULLISH_FVG"
  · rw [if_pos ht1] at h ⊢
    have e1 : pyIget (lows (df ++ ext)) f = pyIget (lows df) f := by
      rw [lows_append, pyIget_append_of_lt _ _ _ (by omega) (by rw [hlows]; omega)]
    have e2 : pyIget (highs (df ++ ext)) ((f : ℤ) - 2) =
        pyIget (highs df) ((f : ℤ) - 2) := by
      rw [highs_append,
        pyIget_append_of_lt _ _ _ (by omega) (by rw [hhighs, htn]; omega)]
    have e3 : (lows (df ++ ext)).drop (f + 1) =
        (lows df).drop (f + 1) ++ lows ext := by
      rw [lows_append, List.drop_append_eq_append_drop,
        Nat.sub_eq_zero_of_le (by omega), List.drop_zero]
    simp only [e1, e2, e3, List.any_append, h, Bool.true_or]
  by_cases ht2 : t = "BEARISH_FVG"
  · rw [if_neg ht1, if_pos ht2] at h ⊢
    have e1 : pyIget (highs (df ++ ext)) f = pyIget (highs df) f := by
      rw [highs_append, pyIget_append_of_lt _ _ _ (by omega) (by rw [hhighs]; omega)]
    have e2 : pyIget (lows (df ++ ext)) ((f : ℤ) - 2) =
        pyIget (lows df) ((f : ℤ) - 2) := by
      rw [lows_append,
        pyIget_append_of_lt _ _ _ (by omega) (by rw [hlows, htn]; omega)]
    have e3 : (highs (df ++ ext)).drop (f + 1) =
        (highs df).drop (f + 1) ++ highs ext := by
      rw [highs_append, List.drop_append_eq_append_drop,
        Nat.sub_eq_zero_of_le (by omega), List.drop_zero]
    simp only [e1, e2, e3, List.any_append, h, Bool.true_or]
  · rw [if_neg ht1, if_neg ht2] at h
    exact absurd h (by simp)

/-- Witness for the amended C6: a bullish FVG at index 2 mitigated by bar
3 stays mitigated after appending a far-away bar. -/
theorem is_fvg_mitigated_monotone_witness :
    2 ≤ 2 ∧
    is_fvg_mitigated [⟨1, 2, 1, 1⟩, ⟨1, 2, 1, 1⟩, ⟨4, 5, 4, 4⟩, ⟨1, 2, 1, 1⟩] 2
      "BULLISH_FVG" = true ∧
    is_fvg_mitigated ([⟨1, 2, 1, 1⟩, ⟨1, 2, 1, 1⟩, ⟨4, 5, 4, 4⟩, ⟨1, 2, 1, 1⟩] ++
      [⟨9, 9, 9, 9⟩]) 2 "BULLISH_FVG" = true := by
  have h : is_fvg_mitigated [⟨1, 2, 1, 1⟩, ⟨1, 2, 1, 1⟩, ⟨4, 5, 4, 4⟩, ⟨1, 2, 1, 1⟩] 2
      "BULLISH_FVG" = true := by
    simp [is_fvg_mitigated, pyIget, lows, highs]
    norm_num
  exact ⟨le_refl 2, h,
    is_fvg_mitigated_monotone [⟨1, 2, 1, 1⟩, ⟨1, 2, 1, 1⟩, ⟨4, 5, 4, 4⟩, ⟨1, 2, 1, 1⟩]
      [⟨9, 9, 9, 9⟩] 2 "BULLISH_FVG" (le_refl 2) h⟩

/-! ## Claim C3 -/

/-- `listMax` is `none` exactly on the empty list. -/
theorem listMax_eq_none {l : List ℚ} : listMax l = none ↔ l = [] := by
  cases l with
  | nil => simp [listMax]
  | cons x xs =>
    simp only [listMax]
    cases listMax xs <;> simp

/-- The maximum of a list is one of its elements. -/
theorem listMax_mem {l : List ℚ} {m : ℚ} (h : listMax l = some m) : m ∈ l := by
  induction l generalizing m with
  | nil => cases h
  | cons x xs ih =>
    simp only [listMax] at h
    cases hx : listMax xs with
    | none =>
      rw [hx] at h
      cases h
      exact List.mem_cons_self _ _
    | some m' =>
      rw [hx] at h
      cases h
      rcases max_choice x m' with he | he <;> rw [he]
      · exact List.mem_cons_self _ _
      · exact List.mem_cons_of_mem _ (ih hx)

/-- Every element of a list is bounded by its maximum. -/
theorem le_listMax {l : List ℚ} {a m : ℚ} (ha : a ∈ l) (h : listMax l = some m) :
    a ≤ m := by
  induction l generalizing m with
  | nil => cases ha
  | cons x xs ih =>
    simp only [listMax] at h
    cases hx : listMax xs with
    | none =>
      rw [hx] at h
      cases h
      rcases List.mem_cons.1 ha with rfl | ha'
      · exact le_refl _
      · rw [listMax_eq_none.1 hx] at ha'
        cases ha'
    | some m' =>
      rw [hx] at h
      cases h
      rcases List.mem_cons.1 ha with rfl | ha'
      · exact le_max_left _ _
      · exact le_trans (ih ha' hx) (le_max_right _ _)

/-- A nonempty list (witnessed by membership) has a maximum. -/
theorem listMax_of_mem {l : List ℚ} {a : ℚ} (h : a ∈ l) :
    ∃ m, listMax l = some m := by
  cases hx : listMax l with
  | none =>
    rw [listMax_eq_none.1 hx] at h
    cases h
  | some m => exact ⟨m, rfl⟩

/-- The element at an in-window index belongs to the window slice. -/
theorem getD_mem_windowSlice (xs : List ℚ) (lo len j : ℕ)
    (h1 : lo ≤ j) (h2 : j < lo + len) (h3 : j < xs.length) :
    xs.getD j 0 ∈ windowSlice xs lo len := by
  have hg : xs.get? j = some (xs.getD j 0) := by
    cases hv : xs.get? j with
    | none =>
      rw [List.get?_eq_none] at hv
      omega
    | some v =>
      rw [List.getD_eq_get?, hv]
      rfl
  have : (windowSlice xs lo len).get? (j - lo) = some (xs.getD j 0) := by
    unfold windowSlice
    rw [List.get?_take (by omega), List.get?_drop,
      show lo + (j - lo) = j from by omega]
    exact hg
  exact List.get?_mem this

/-- Every element of a window slice is the series value at some in-window
index. -/
theorem windowSlice_mem_bound (xs : List ℚ) (lo len : ℕ) {a : ℚ}
    (ha : a ∈ windowSlice xs lo len) :
    ∃ j, lo ≤ j ∧ j < lo + len ∧ j < xs.length ∧ xs.getD j 0 = a := by
  obtain ⟨n, hn⟩ := List.mem_iff_get?.1 ha
  have hlen : n < (windowSlice xs lo len).length := by
    by_contra hc
    push_neg at hc
    rw [List.get?_eq_none.2 hc] at hn
    cases hn
  unfold windowSlice at hn hlen
  rw [List.length_take, List.length_drop] at hlen
  rw [List.get?_take (by omega), List.get?_drop] at hn
  refine ⟨lo + n, by omega, by omega, by omega, ?_⟩
  rw [List.getD_eq_get?, hn]
  rfl

/-- Claim C3 as amended: on a series with a single global maximum high at
index `k`, `k` at least `lookback` bars from both edges,
`detect_swing_points` marks bar `k` as a swing high, and marks no other
bar within `lookback` bars of `k`.  (Bars farther than `lookback` from `k`
can still be marked whenever their high is the maximum of their own
centered window, so "no other bar" does not hold globally.) -/
theorem swing_single_max (df : List Bar) (L k : ℕ)
    (hk1 : L ≤ k) (hk2 : k + L < df.length)
    (huniq : ∀ j, j < df.length → j ≠ k → highAt df j < highAt df k) :
    swing_high df L k = some (highAt df k) ∧
      ∀ j, j ≠ k → k ≤ j + L → j ≤ k + L → swing_high df L j = none := by
  have hlenh : (highs df).length = df.length := List.length_map _ _
  constructor
  · unfold swing_high rolling_centered_max
    rw [if_pos ⟨hk1, by omega⟩]
    have hmem : highAt df k ∈ windowSlice (highs df) (k - L) (2 * L + 1) :=
      getD_mem_windowSlice (highs df) (k - L) (2 * L + 1) k (by omega) (by omega)
        (by omega)
    obtain ⟨m, hm⟩ := listMax_of_mem hmem
    have hmk : m = highAt df k := by
      refine le_antisymm ?_ (le_listMax hmem hm)
      obtain ⟨j, hj1, hj2, hj3, hj4⟩ := windowSlice_mem_bound _ _ _ (listMax_mem hm)
      by_cases hjk : j = k
      · subst hjk
        exact le_of_eq hj4.symm
      · exact le_of_lt (hj4 ▸ huniq j (by omega) hjk)
    rw [hm, hmk]
    dsimp only
    rw [if_pos rfl]
  · intro j hjk hjl1 hjl2
    unfold swing_high rolling_centered_max
    by_cases hcond : L ≤ j ∧ j + L < (highs df).length
    · rw [if_pos hcond]
      have hkmem : highAt df k ∈ windowSlice (highs df) (j - L) (2 * L + 1) :=
        getD_mem_windowSlice (highs df) (j - L) (2 * L + 1) k (by omega) (by omega)
          (by omega)
      obtain ⟨m, hm⟩ := listMax_of_mem hkmem
      have hlt : highAt df j < m :=
        lt_of_lt_of_le (huniq j (by omega) hjk) (le_listMax hkmem hm)
      rw [hm]
      dsimp only
      rw [if_neg (ne_of_lt hlt)]
    · rw [if_neg hcond]

/-- Counterexample for C3: with lookback 1 (≤ min(k, n−1−k) = 1) the
series has its single global maximum at k = 3, at least one bar from each
edge, yet `detect_swing_points` marks bar 1 as a swing high in addition to
bar 3 — "marks no other bar" fails. -/
theorem swing_single_max_counterexample :
    highAt singleMaxSeries 0 < highAt singleMaxSeries 3 ∧
    highAt singleMaxSeries 1 < highAt singleMaxSeries 3 ∧
    highAt singleMaxSeries 2 < highAt singleMaxSeries 3 ∧
    highAt singleMaxSeries 4 < highAt singleMaxSeries 3 ∧
    1 ≤ 3 ∧ 3 + 1 < singleMaxSeries.length ∧
    swing_high singleMaxSeries 1 3 = some 10 ∧
    swing_high singleMaxSeries 1 1 = some 3 := by decide

/-- Witness for the amended C3 on the same series: bar 3 is marked and its
neighbours within the lookback are not. -/
theorem swing_single_max_witness :
    swing_high singleMaxSeries 1 3 = some (highAt singleMaxSeries 3) ∧
    swing_high singleMaxSeries 1 2 = none ∧
    swing_high singleMaxSeries 1 4 = none := by
  have h := swing_single_max singleMaxSeries 1 3 (by decide) (by decide)
    (by decide)
  exact ⟨h.1, h.2 2 (by decide) (by decide) (by decide),
    h.2 4 (by decide) (by decide) (by decide)⟩

/-! ## Claim C1 -/

/-- The ascending sweep scan returns the first (smallest-index) match in
its fuel window, and nothing before it matches. -/
theorem find_sweep_aux_spec (df : List Bar) (wl : ℕ) (dir : String) :
    ∀ fuel j jr, find_sweep_aux df wl dir j fuel = some jr →
      j ≤ jr ∧ jr < j + fuel ∧ sweep_match df wl dir jr = true ∧
        ∀ j', j ≤ j' → j' < jr → sweep_match df wl dir j' = false := by
  intro fuel
  induction fuel with
  | zero => intro j jr h; cases h
  | succ fuel ih =>
    intro j jr h
    unfold find_sweep_aux at h
    by_cases hm : sweep_match df wl dir j = true
    · rw [if_pos hm] at h
      cases h
      exact ⟨le_refl _, by omega, hm, fun j' h1 h2 => absurd (by omega : j ≤ j') (by omega)⟩
    · rw [if_neg hm] at h
      obtain ⟨ha, hb, hc, hd⟩ := ih (j + 1) jr h
      refine ⟨by omega, by omega, hc, fun j' h1 h2 => ?_⟩
      by_cases hj' : j' = j
      · subst hj'
        exact Bool.not_eq_true _ ▸ (by simpa using hm)
      · exact hd j' (by omega) h2
/-- The matched sweep of check 2 lies in the five bars before the FVG bar,
matches the FVG direction, and is the FIRST match in ascending order: no
smaller index in the window matches. -/
theorem find_sweep_spec (df : List Bar) (wl i : ℕ) (t : String) (jr : ℕ)
    (h : find_sweep df wl i t = some jr) :
    i - 5 ≤ jr ∧ jr < i ∧ sweep_match df wl (fvg_dir t) jr = true ∧
      ∀ j', i - 5 ≤ j' → j' < jr → sweep_match df wl (fvg_dir t) j' = false := by
  obtain ⟨ha, hb, hc, hd⟩ := find_sweep_aux_spec df wl (fvg_dir t) (i - (i - 5)) (i - 5) jr h
  exact ⟨ha, by omega, hc, hd⟩

/-- A successful backward scan comes from `process_candidate` succeeding at
some index inside the scanned range. -/
theorem scan_candidates_spec (df : List Bar) (wl : ℕ) (th : ℚ) :
    ∀ fuel i s, scan_candidates df wl th i fuel = some s →
      ∃ i', i' ≤ i ∧ i < i' + fuel ∧ process_candidate df wl th i' = some s := by
  intro fuel
  induction fuel with
  | zero => intro i s h; cases h
  | succ fuel ih =>
    intro i s h
    unfold scan_candidates at h
    cases hp : process_candidate df wl th i with
    | some s' =>
      rw [hp] at h
      cases h
      exact ⟨i, le_refl _, by omega, hp⟩
    | none =>
      rw [hp] at h
      obtain ⟨i', h1, h2, h3⟩ := ih (i - 1) s h
      exact ⟨i', by omega, by omega, h3⟩

/-- A successful `process_candidate` at bar `i` records `i` as the FVG
bar, an unmitigated FVG there, a matched sweep equal to the recorded
sweep bar, and the setup direction equal to the FVG direction. -/
theorem process_candidate_spec (df : List Bar) (wl : ℕ) (th : ℚ) (i : ℕ)
    (s : Setup) (h : process_candidate df wl th i = some s) :
    s.fvg_bar = i ∧
      ∃ g, detect_fvg df i = some g ∧ is_fvg_mitigated df i g.signal = false ∧
        find_sweep df wl i g.signal = some s.sweep_bar ∧
        s.setup_type = fvg_dir g.signal := by
  unfold process_candidate at h
  cases hg : detect_fvg df i with
  | none => rw [hg] at h; cases h
  | some g =>
    rw [hg] at h
    dsimp only at h
    by_cases hm : is_fvg_mitigated df i g.signal = true
    · rw [if_pos hm] at h; cases h
    · rw [if_neg hm] at h
      cases hs : find_sweep df wl i g.signal with
      | none => rw [hs] at h; cases h
      | some j =>
        rw [hs] at h
        dsimp only at h
        cases h
        exact ⟨rfl, g, rfl, Bool.not_eq_true _ ▸ hm, hs, rfl⟩

/-- Claim C1 as amended: whenever `get_smc_setup` returns a setup, the
recorded sweep bar is a sweep event of the setup's direction within the 5
bars immediately preceding the FVG bar, and among multiple matching sweep
events in that window the first match FARTHEST from the FVG (the smallest
bar index ≥ fvg_bar − 5) wins — the scan runs in ascending order, so no
smaller index in the window matches.  A candidate FVG that is unmitigated
but has no matching sweep in its window is skipped: it is never the
returned FVG bar. -/
theorem get_smc_setup_sweep_first_ascending (df : List Bar) (wl : ℕ) (th : ℚ)
    (s : Setup) (h : get_smc_setup df wl th = some s) :
    (s.fvg_bar - 5 ≤ s.sweep_bar ∧ s.sweep_bar < s.fvg_bar) ∧
    sweep_match df wl s.setup_type s.sweep_bar = true ∧
    (∀ j', s.fvg_bar - 5 ≤ j' → j' < s.sweep_bar →
      sweep_match df wl s.setup_type j' = false) ∧
    (∀ i g, detect_fvg df i = some g → is_fvg_mitigated df i g.signal = false →
      find_sweep df wl i g.signal = none → s.fvg_bar ≠ i) := by
  unfold get_smc_setup at h
  by_cases hlen : df.length < wl + 10
  · rw [if_pos hlen] at h; cases h
  rw [if_neg hlen] at h
  obtain ⟨i', _, _, hp⟩ := scan_candidates_spec df wl th _ _ _ h
  obtain ⟨hbar, g, hg, hmit, hsw, hdir⟩ := process_candidate_spec df wl th i' s hp
  obtain ⟨h1, h2, h3, h4⟩ := find_sweep_spec df wl i' g.signal s.sweep_bar hsw
  subst hbar
  refine ⟨⟨h1, h2⟩, hdir ▸ h3, fun j' hj1 hj2 => hdir ▸ h4 j' hj1 hj2, ?_⟩
  intro i g' hg' hmit' hfs' hne
  rw [hne] at hg hmit hsw
  rw [hg] at hg'
  cases hg'
  rw [hfs'] at hsw
  cases hsw

/-- ATR baseline on `c1Df` at bar 22 (spec-modelled rolling mean of true
range over 14 bars). -/
theorem c1_atr22 : atr_baseline c1Df 14 22 = some (16/7) := by
  norm_num [atr_baseline, true_range, closeAt, openAt, highAt, lowAt,
    closes, opens, highs, lows, c1Df, List.range', max_def, abs]

/-- ATR baseline on `c1Df` at bar 23. -/
theorem c1_atr23 : atr_baseline c1Df 14 23 = some (16/7) := by
  norm_num [atr_baseline, true_range, closeAt, openAt, highAt, lowAt,
    closes, opens, highs, lows, c1Df, List.range', max_def, abs]

/-- ATR baseline on `c1Df` at bar 24. -/
theorem c1_atr24 : atr_baseline c1Df 14 24 = some (16/7) := by
  norm_num [atr_baseline, true_range, closeAt, openAt, highAt, lowAt,
    closes, opens, highs, lows, c1Df, List.range', max_def, abs]

/-- ATR baseline on `c1Df` at bar 25. -/
theorem c1_atr25 : atr_baseline c1Df 14 25 = some (33/14) := by
  norm_num [atr_baseline, true_range, closeAt, openAt, highAt, lowAt,
    closes, opens, highs, lows, c1Df, List.range', max_def, abs]

/-- No displacement on `c1Df` at bar 22 (zero candle body). -/
theorem c1_disp22 : displacement_signal c1Df (3/2) 14 22 = none := by
  unfold displacement_signal
  rw [c1_atr22]
  dsimp only
  rw [if_neg (by norm_num [closeAt, openAt, closes, opens, c1Df])]

/-- No displacement on `c1Df` at bar 23. -/
theorem c1_disp23 : displacement_signal c1Df (3/2) 14 23 = none := by
  unfold displacement_signal
  rw [c1_atr23]
  dsimp only
  rw [if_neg (by norm_num [closeAt, openAt, closes, opens, c1Df])]

/-- No displacement on `c1Df` at bar 24. -/
theorem c1_disp24 : displacement_signal c1Df (3/2) 14 24 = none := by
  unfold displacement_signal
  rw [c1_atr24]
  dsimp only
  rw [if_neg (by norm_num [closeAt, openAt, closes, opens, c1Df])]

/-- No displacement on `c1Df` at bar 25. -/
theorem c1_disp25 : displacement_signal c1Df (3/2) 14 25 = none := by
  unfold displacement_signal
  rw [c1_atr25]
  dsimp only
  rw [if_neg (by norm_num [closeAt, openAt, closes, opens, c1Df])]

/-- Check 4 finds no matching displacement near the sweep at bar 22. -/
theorem c1_dispfound : displacement_found_in c1Df (3/2) 22 "BULLISH" = false := by
  have hl : c1Df.length = 30 := rfl
  unfold displacement_found_in
  rw [hl]
  norm_num [List.range']
  simp [c1_disp22, c1_disp23, c1_disp24, c1_disp25]

/-- No FVG forms on `c1Df` at bar 29. -/
theorem c1_fvg29 : detect_fvg c1Df 29 = none := by decide

/-- No FVG forms on `c1Df` at bar 28. -/
theorem c1_fvg28 : detect_fvg c1Df 28 = none := by decide

/-- The bullish FVG on `c1Df` at bar 27: top 102, bottom 99, midpoint 100.5. -/
theorem c1_fvg27 : detect_fvg c1Df 27 = some ⟨"BULLISH_FVG", 102, 99, 201/2⟩ := by
  norm_num [detect_fvg, highAt, lowAt, highs, lows, c1Df]

/-- The bar-27 FVG of `c1Df` is not mitigated (bars 28–29 stay above the
midpoint 100.5). -/
theorem c1_mit27 : is_fvg_mitigated c1Df 27 "BULLISH_FVG" = false := by
  simp [is_fvg_mitigated, pyIget, lows, highs, c1Df]
  norm_num

/-- The sweep scan for the bar-27 FVG of `c1Df` returns bar 22 — the first
match in ascending order — although bar 26 also matches. -/
theorem c1_sweep27 : find_sweep c1Df 20 27 "BULLISH_FVG" = some 22 := by decide

/-- No internal swing low precedes the bar-27 FVG of `c1Df` inside the
8-bar inducement window. -/
theorem c1_ind27 : detect_inducement c1Df 27 "BULLISH_FVG" 8 =
    ⟨false, none, false⟩ := by decide

/-- The scan skips bar 29 of `c1Df` (no FVG). -/
theorem c1_proc29 : process_candidate c1Df 20 (3/2) 29 = none := by
  unfold process_candidate
  rw [c1_fvg29]

/-- The scan skips bar 28 of `c1Df` (no FVG). -/
theorem c1_proc28 : process_candidate c1Df 20 (3/2) 28 = none := by
  unfold process_candidate
  rw [c1_fvg28]

/-- The scan accepts bar 27 of `c1Df` and builds `c1Setup`. -/
theorem c1_proc27 : process_candidate c1Df 20 (3/2) 27 = some c1Setup := by
  unfold process_candidate
  rw [c1_fvg27]
  dsimp only
  rw [c1_mit27]
  simp only [Bool.false_eq_true, if_false]
  rw [c1_sweep27]
  dsimp only
  simp only [show fvg_dir "BULLISH_FVG" = "BULLISH" from rfl, c1_dispfound, c1_ind27]
  norm_num [c1Setup, lowAt, closeAt, lows, closes, c1Df]

/-- Full evaluation of the setup composer on `c1Df`. -/
theorem c1_eval : get_smc_setup c1Df 20 (3/2) = some c1Setup := by
  have step : ∀ i fuel, scan_candidates c1Df 20 (3/2) i (fuel + 1) =
      match process_candidate c1Df 20 (3/2) i with
      | some s => some s
      | none => scan_candidates c1Df 20 (3/2) (i - 1) fuel := fun i fuel => rfl
  have hl : c1Df.length = 30 := rfl
  unfold get_smc_setup
  rw [hl]
  norm_num
  rw [show (9 : ℕ) = 8 + 1 from rfl, step, c1_proc29]
  dsimp only
  rw [show (8 : ℕ) = 7 + 1 from rfl, step, c1_proc28]
  dsimp only
  rw [show (7 : ℕ) = 6 + 1 from rfl, step, c1_proc27]

/-- Counterexample for C1: on `c1Df` the candidate FVG at bar 27 has TWO
matching bullish sweeps in the five preceding bars, at bars 22 and 26.
The claim says the match nearest to the FVG (the largest bar index, 26)
wins; the returned setup records sweep bar 22 — the `for j in
range(max(0, i-5), i)` loop scans ascending and keeps the FIRST
(farthest) match. -/
theorem get_smc_setup_picks_farthest_sweep :
    get_smc_setup c1Df 20 (3/2) = some c1Setup ∧
    c1Setup.fvg_bar = 27 ∧ c1Setup.sweep_bar = 22 ∧
    c1Setup.fvg_bar - 5 ≤ 26 ∧ 26 < c1Setup.fvg_bar ∧
    sweep_match c1Df 20 c1Setup.setup_type 26 = true ∧
    (22 : ℕ) ≠ 26 :=
  ⟨c1_eval, rfl, rfl, by decide, by decide, by decide, by decide⟩

/-- Witness for the amended C1 on `c1Df`: the returned sweep bar lies in
the 5-bar window before the FVG bar and carries a matching sweep. -/
theorem get_smc_setup_sweep_first_ascending_witness :
    get_smc_setup c1Df 20 (3/2) = some c1Setup ∧
    (c1Setup.fvg_bar - 5 ≤ c1Setup.sweep_bar ∧ c1Setup.sweep_bar < c1Setup.fvg_bar) ∧
    sweep_match c1Df 20 c1Setup.setup_type c1Setup.sweep_bar = true :=
  ⟨c1_eval,
   (get_smc_setup_sweep_first_ascending c1Df 20 (3/2) c1Setup c1_eval).1,
   (get_smc_setup_sweep_first_ascending c1Df 20 (3/2) c1Setup c1_eval).2.1⟩
